import Mathlib

/-!
Verification development for the Image_Service repository.

Shallow embedding of the job-dispatch subsystem:
* `withRetry` — the retry helper of
  `src/Image_Generator_Service/src/services/imageService.js` (lines 30–52);
* `serviceGenerateImage` — `imageService.generateImage` (lines 54–205);
* `workerGenerateImage` — the worker task executor of
  `src/Image_Generator_Service/src/worker.js`;
* `poolProcessJob` — `WorkerPool.processJob` of the pool module;
* `startConsumingDecision` — the ack/nack logic of `RabbitMQConsumer.startConsuming`;
* small state machines for the check-then-insert job creation, worker-fault
  supervision and pool termination.

External effects (the generation API, the response-buffer read, the upload API)
are oracles supplied through a `ServiceEnv`; store writes are pure state
transitions on in-memory lists standing for the Mongo collections.
-/

deriving instance DecidableEq for Except

/-- Outcome of a `withRetry` run: the final result (`Except.error` carries the
last attempt's error, `none` only in the degenerate zero-budget case where the
JS code would throw `undefined`), the number of attempts actually made, and the
list of backoff delays (ms) slept between failed attempts. -/
structure RetryOut (ε α : Type) where
  result : Except (Option ε) α
  attempts : Nat
  delays : List Nat
deriving Repr, DecidableEq

/-- `RETRY_DELAY` of imageService.js (2000 ms). -/
def RETRY_DELAY : Nat := 2000

/-- `MAX_RETRIES` of imageService.js. -/
def MAX_RETRIES : Nat := 3

/-- The loop body of `withRetry`: `fuel` is the number of attempts still
allowed, `i` the 0-based index of the next attempt, `last` the last error seen.
A delay of `base * (i+1)` is recorded after a failed attempt exactly when more
attempts remain (`i < maxRetries - 1` in the source). -/
def withRetryGo (op : Nat → Except ε α) (base : Nat) :
    Nat → Nat → Option ε → RetryOut ε α
  | 0, i, last => ⟨.error last, i, []⟩
  | fuel + 1, i, _last =>
    match op i with
    | .ok a => ⟨.ok a, i + 1, []⟩
    | .error e =>
      let rest := withRetryGo op base fuel (i + 1) (some e)
      if 0 < fuel then ⟨rest.result, rest.attempts, base * (i + 1) :: rest.delays⟩
      else rest

/-- `withRetry(operation, maxRetries)` from imageService.js, with the attempt
outcomes supplied as the oracle `op`. -/
def withRetry (op : Nat → Except ε α) (maxRetries : Nat) : RetryOut ε α :=
  withRetryGo op RETRY_DELAY maxRetries 0 none

/-- The fixed fallback placeholder URL used by imageService.js (and echoed in
worker.js error envelopes). -/
def defaultImageUrl : String :=
  "https://res.cloudinary.com/dxpz4afdv/image/upload/v1746636099/video-generator/rwsbeeqlc3zbrq4jcl2s.jpg"

/-- The style → description table of `generateImage`, with the generic
fallback phrase for unknown styles. -/
def styleDescription (style : String) : String :=
  if style = "realistic" then
    "in a photorealistic style with high detail and natural lighting"
  else if style = "cartoon" then
    "in a vibrant cartoon style with bold colors and clean lines"
  else if style = "anime" then
    "in an anime art style with expressive features and dynamic composition"
  else if style = "watercolor" then
    "in a soft watercolor painting style with flowing colors and gentle brushstrokes"
  else if style = "oil painting" then
    "in an oil painting style with rich textures and classical composition"
  else "in a " ++ style ++ " style"

/-- A persisted Image record (the fields the dispatch logic reads/writes). -/
structure ImageRec where
  splitScriptId : String
  scriptId : String
  prompt : String
  style : String
  resolution : String
  url : String
  status : String
  error : Option String
deriving Repr, DecidableEq

/-- The `data` object of the envelope `imageService.generateImage` returns.
`imageId` is the index of the saved record in the image store. -/
structure ImageData where
  imageId : Nat
  url : String
  status : String
  prompt : String
  style : String
  resolution : String
  scriptId : String
  splitScriptId : String
  error : Option String
deriving Repr, DecidableEq

/-- The envelope `imageService.generateImage` returns. A JS field that is
absent is modelled as `none`. -/
structure ServiceResult where
  status : String
  error : Option String
  data : ImageData
deriving Repr, DecidableEq

/-- Oracle for the external effects of one service call: the outcome of each
generation attempt, of the response-buffer read (`arrayBuffer` vs the 30 s
timeout race), and of each upload attempt (returning the secure URL). -/
structure ServiceEnv where
  genAttempt : Nat → Except String Unit
  bufferResult : Except String Unit
  uploadAttempt : Nat → Except String String

/-- Parameters of `imageService.generateImage`; `none` models an absent/falsy
JS argument. -/
structure GenParams where
  prompt : Option String
  style : Option String
  resolution : String
  scriptId : Option String
  splitScriptId : Option String
deriving Repr, DecidableEq

/-- The catch branch of `imageService.generateImage` (lines 162–204): persist
an Image record with the fallback URL, `status: 'generated'` and the captured
error, and return the corresponding envelope. -/
def serviceCatch (prompt style resolution scriptId splitScriptId errMsg : String)
    (store : List ImageRec) : ServiceResult × List ImageRec :=
  let img : ImageRec :=
    { splitScriptId, scriptId, prompt, style, resolution,
      url := defaultImageUrl, status := "generated", error := some errMsg }
  ({ status := "generated", error := some errMsg,
     data := { imageId := store.length, url := defaultImageUrl, status := "generated",
               prompt, style, resolution, scriptId, splitScriptId,
               error := some errMsg } },
   store ++ [img])

/-- Message of the error `withRetry` rethrows (the degenerate `none` case
corresponds to the JS `undefined`). -/
def retryErrMsg (o : Option String) : String := o.getD "undefined"

/-- `imageService.generateImage`. Throws (`Except.error`) only when `prompt`,
`scriptId` or `splitScriptId` is missing; every other failure is caught
internally and turned into the fallback envelope by `serviceCatch`. -/
def serviceGenerateImage (params : GenParams) (env : ServiceEnv)
    (store : List ImageRec) : Except String (ServiceResult × List ImageRec) :=
  match params.prompt, params.scriptId, params.splitScriptId with
  | some prompt, some scriptId, some splitScriptId =>
    let style := params.style.getD "anime"
    let resolution := params.resolution
    match (withRetry env.genAttempt MAX_RETRIES).result with
    | .error e =>
      .ok (serviceCatch prompt style resolution scriptId splitScriptId (retryErrMsg e) store)
    | .ok _ =>
      match env.bufferResult with
      | .error e =>
        .ok (serviceCatch prompt style resolution scriptId splitScriptId e store)
      | .ok _ =>
        match (withRetry env.uploadAttempt MAX_RETRIES).result with
        | .error e =>
          .ok (serviceCatch prompt style resolution scriptId splitScriptId (retryErrMsg e) store)
        | .ok url =>
          let img : ImageRec :=
            { splitScriptId, scriptId, prompt, style, resolution,
              url, status := "generated", error := none }
          .ok ({ status := "generated", error := none,
                 data := { imageId := store.length, url, status := "generated",
                           prompt, style, resolution, scriptId, splitScriptId,
                           error := none } },
               store ++ [img])
  | _, _, _ => .error "Prompt, scriptId, and splitScriptId are required"

/-- Whether a service call ends in its catch branch: the generation retries
were exhausted, the buffer read failed, or the upload retries were exhausted. -/
def serviceFailed (env : ServiceEnv) : Bool :=
  match (withRetry env.genAttempt MAX_RETRIES).result with
  | .error _ => true
  | .ok _ =>
    match env.bufferResult with
    | .error _ => true
    | .ok _ =>
      match (withRetry env.uploadAttempt MAX_RETRIES).result with
      | .error _ => true
      | .ok _ => false

/-- The error message captured by the service's catch branch (meaningless when
`serviceFailed env = false`). -/
def serviceErrorMsg (env : ServiceEnv) : String :=
  match (withRetry env.genAttempt MAX_RETRIES).result with
  | .error e => retryErrMsg e
  | .ok _ =>
    match env.bufferResult with
    | .error e => e
    | .ok _ =>
      match (withRetry env.uploadAttempt MAX_RETRIES).result with
      | .error e => retryErrMsg e
      | .ok _ => ""

/-- A persisted Job record (the fields worker.js and the pool read/write). -/
structure JobRec where
  jobId : String
  scriptId : String
  userId : String
  totalImages : Nat
  completedImages : Nat
  status : String
  imageIds : List Nat
  error : Option String
deriving Repr, DecidableEq

/-- `Job.findOne({ jobId })`. -/
def findJob (jobs : List JobRec) (k : String) : Option JobRec :=
  jobs.find? (fun j => j.jobId = k)

/-- `Job.updateOne({ jobId }, ...)`: apply `f` to every record matching the
key (the key is unique, so at most one record changes). -/
def jobUpdate (jobs : List JobRec) (k : String) (f : JobRec → JobRec) : List JobRec :=
  jobs.map (fun j => if j.jobId = k then f j else j)

/-- JS `metadata.totalImage || 1`: `0`, like an absent field, is falsy. -/
def jsOrOne (o : Option Nat) : Nat :=
  match o with
  | some v => if v = 0 then 1 else v
  | none => 1

/-- A queue message (`jobData`); `none` models an absent JS field. -/
structure JobData where
  jobId : Option String
  userId : Option String
  prompt : Option String
  scriptId : Option String
  splitScriptId : Option String
  style : Option String
  resolution : Option String
  totalImage : Option Nat
deriving Repr, DecidableEq

/-- A message the worker posts to the main thread via `parentPort`. -/
inductive OutMsg where
  | jobCompleted (jobId userId : Option String) (completedImages totalImages : Nat)
      (images : List Nat)
  | jobFailed (jobId userId : Option String) (error : String)
  | imageGenerated (success : Bool) (data : ImageData)
      (jobCompletedSnap jobTotalSnap : Nat) (isCompletedSnap : Bool)
  | errorOut (success : Bool) (error : String) (jobId userId : Option String)
      (defaultUrl : String)
deriving Repr, DecidableEq

/-- The store state a worker mutates: the Job and Image collections. -/
structure WorkerSt where
  jobs : List JobRec
  images : List ImageRec
deriving Repr, DecidableEq

/-- The find-or-create of worker.js lines 29–41 (duplicated verbatim in
`WorkerPool.processJob`): `findOne`, then `save` a fresh record if absent —
an application-level check-then-insert, not a store upsert. -/
def ensureJob (jobs : List JobRec) (jobId scriptId userId : String)
    (totalImage : Option Nat) : JobRec × List JobRec :=
  match findJob jobs jobId with
  | some j => (j, jobs)
  | none =>
    let j : JobRec :=
      { jobId, scriptId, userId, totalImages := jsOrOne totalImage,
        completedImages := 0, status := "processing", imageIds := [], error := none }
    (j, jobs ++ [j])

/-- The validation error message shared by worker.js and `WorkerPool.processJob`. -/
def missingFieldsMsg : String :=
  "Missing required fields: jobId, userId, prompt, scriptId, splitScriptId"

/-- The catch branch of worker.js `generateImage` (lines 129–165): look the job
up; if it exists and has produced no image yet, mark it failed and emit a
`jobFailed` outcome; always post the final `error` envelope. -/
def workerCatch (jobData : JobData) (errMsg : String) (st : WorkerSt) :
    WorkerSt × List OutMsg :=
  let errEnvelope := OutMsg.errorOut false errMsg jobData.jobId jobData.userId defaultImageUrl
  match jobData.jobId with
  | none => (st, [errEnvelope])
  | some jid =>
    match findJob st.jobs jid with
    | none => (st, [errEnvelope])
    | some job =>
      if job.imageIds = [] then
        let jobs' := jobUpdate st.jobs jid
          (fun j => { j with status := "failed", error := some errMsg })
        ({ st with jobs := jobs' },
         [OutMsg.jobFailed jobData.jobId jobData.userId errMsg, errEnvelope])
      else (st, [errEnvelope])

/-- `generateImage` of worker.js: validate, find-or-create the job, call the
service, and on a `'generated'` result atomically increment the counter, push
the image id, re-read the job and possibly mark it completed. The emitted
messages appear in posting order. -/
def workerGenerateImage (jobData : JobData) (env : ServiceEnv) (st : WorkerSt) :
    WorkerSt × List OutMsg :=
  match jobData.jobId, jobData.userId, jobData.prompt, jobData.scriptId,
      jobData.splitScriptId with
  | some jobId, some userId, some prompt, some scriptId, some splitScriptId =>
    let fc := ensureJob st.jobs jobId scriptId userId jobData.totalImage
    let job0 := fc.1
    let jobs0 := fc.2
    let params : GenParams :=
      { prompt := some prompt, style := some (jobData.style.getD "realistic"),
        resolution := jobData.resolution.getD "1024x1024",
        scriptId := some scriptId, splitScriptId := some splitScriptId }
    match serviceGenerateImage params env st.images with
    | .error e => workerCatch jobData e { st with jobs := jobs0 }
    | .ok (result, images') =>
      if result.status = "generated" then
        let jobs1 := jobUpdate jobs0 jobId
          (fun j => { j with completedImages := j.completedImages + 1,
                             imageIds := j.imageIds ++ [result.data.imageId] })
        match findJob jobs1 jobId with
        | none =>
          -- JS: `updatedJob` null would raise a TypeError caught by the outer catch
          workerCatch jobData "Cannot read properties of null"
            { jobs := jobs1, images := images' }
        | some updatedJob =>
          if updatedJob.totalImages ≤ updatedJob.completedImages then
            let jobs2 := jobUpdate jobs1 jobId (fun j => { j with status := "completed" })
            ({ jobs := jobs2, images := images' },
             [OutMsg.jobCompleted (some jobId) (some userId)
                updatedJob.completedImages updatedJob.totalImages updatedJob.imageIds,
              OutMsg.imageGenerated true result.data
                job0.completedImages job0.totalImages (job0.status = "completed")])
          else
            ({ jobs := jobs1, images := images' },
             [OutMsg.imageGenerated true result.data
                job0.completedImages job0.totalImages (job0.status = "completed")])
      else
        ({ jobs := jobs0, images := images' },
         [OutMsg.imageGenerated true result.data
            job0.completedImages job0.totalImages (job0.status = "completed")])
  | _, _, _, _, _ => workerCatch jobData missingFieldsMsg st

/-- What `WorkerPool.processJob` resolves (or rejects) with: the terminal-job
snapshot envelope, the first message posted by the dispatched worker
(`worker.once('message')`), or a thrown error (a rejected promise). -/
inductive PoolOutcome where
  | terminal (jobStatus : String) (jobId : String) (completedImages totalImages : Nat)
      (images : List Nat)
  | workerOutcome (firstMsg : OutMsg)
  | threw (err : String)
deriving Repr, DecidableEq

/-- `WorkerPool.processJob`: validate, find-or-create the job, early-return a
snapshot for a job already `completed`/`failed` (without dispatching), else
dispatch to a worker and resolve with its first posted message. -/
def poolProcessJob (jobData : JobData) (env : ServiceEnv) (st : WorkerSt) :
    WorkerSt × PoolOutcome :=
  match jobData.jobId, jobData.userId, jobData.prompt, jobData.scriptId,
      jobData.splitScriptId with
  | some jobId, some userId, some _, some scriptId, some _ =>
    let fc := ensureJob st.jobs jobId scriptId userId jobData.totalImage
    let job0 := fc.1
    let jobs0 := fc.2
    if job0.status = "completed" ∨ job0.status = "failed" then
      ({ st with jobs := jobs0 },
       .terminal job0.status job0.jobId job0.completedImages job0.totalImages job0.imageIds)
    else
      let wr := workerGenerateImage jobData env { st with jobs := jobs0 }
      (wr.1, .workerOutcome (wr.2.headD (OutMsg.errorOut false "" none none "")))
  | _, _, _, _, _ => (st, .threw missingFieldsMsg)

/-- The `success` field of the object a pool promise resolves with: worker
envelopes carry an explicit flag; `jobCompleted`/`jobFailed` messages and the
terminal-job snapshot carry none. -/
def msgSuccess : OutMsg → Option Bool
  | .imageGenerated s _ _ _ _ => some s
  | .errorOut s _ _ _ _ => some s
  | _ => none

/-- `success` of a resolved `PoolOutcome` (meaningless for `threw`). -/
def outcomeSuccess : PoolOutcome → Option Bool
  | .terminal _ _ _ _ _ => none
  | .workerOutcome m => msgSuccess m
  | .threw _ => none

/-- A run of the consumer/pool/worker system: deliveries processed one at a
time (each with its own effect oracle), starting from a given store state. -/
def runMsgs : List (JobData × ServiceEnv) → WorkerSt → WorkerSt
  | [], st => st
  | (jd, env) :: rest, st => runMsgs rest (poolProcessJob jd env st).1

/-- Whether an outgoing message is a `jobFailed` outcome. -/
def OutMsg.isJobFailedMsg : OutMsg → Bool
  | .jobFailed _ _ _ => true
  | _ => false

/-- Whether an outgoing message is a `jobCompleted` outcome. -/
def OutMsg.isJobCompletedMsg : OutMsg → Bool
  | .jobCompleted _ _ _ _ _ => true
  | _ => false

/-- The broker action the consumer takes for a delivery. -/
inductive ConsumerAction where
  | ack
  | nackRequeue
deriving Repr, DecidableEq

/-- What awaiting `workerPool.processJob` yields in the consumer: a resolved
value carrying an optional `success` flag, or a rejection. -/
inductive PromiseOutcome where
  | resolved (success : Option Bool)
  | rejected (err : String)
deriving Repr, DecidableEq

/-- The decision logic of `RabbitMQConsumer.startConsuming` for one delivery:
`none` input models `msg === null` (no delivery, nothing happens); a delivered
message either fails to parse (→ catch → nack+requeue) or is submitted to the
pool, after which `result.success` truthy (`some true`) acks and anything else
— `false`, an absent flag, or a rejected promise — nacks with requeue. -/
def startConsumingDecision (msg : Option (Except String JobData))
    (pool : JobData → PromiseOutcome) : Option ConsumerAction :=
  match msg with
  | none => none
  | some (.error _) => some .nackRequeue
  | some (.ok jobData) =>
    match pool jobData with
    | .rejected _ => some .nackRequeue
    | .resolved s => some (if s = some true then .ack else .nackRequeue)

/-- One processor running the code's find-or-create protocol for a fixed
contested job key: program counter 0 = about to `findOne`, 1 = found nothing
and about to `save`, 2 = done with an outcome (`ok` or the duplicate-key error
the unique index on `jobId` raises for a second insert). -/
structure DupClient where
  pc : Nat
  outcome : Option (Except String Unit)
deriving Repr, DecidableEq

/-- Interleaved state of two concurrent processors of items with the same
`jobKey`: `count` is the number of Job records holding that key. -/
structure DupSt where
  count : Nat
  a : DupClient
  b : DupClient
deriving Repr, DecidableEq

/-- One primitive store operation of the check-then-insert protocol
(worker.js lines 29–41 / `WorkerPool.processJob` lines 51–74): `findOne` at
pc 0, `save` at pc 1; the `save` of a record whose unique key already exists
fails with a duplicate-key error instead of creating a second record. -/
def dupClientStep (store : Nat) (c : DupClient) : Nat × DupClient :=
  match c.pc with
  | 0 =>
    if 0 < store then (store, { pc := 2, outcome := some (.ok ()) })
    else (store, { pc := 1, outcome := none })
  | 1 =>
    if store = 0 then (store + 1, { pc := 2, outcome := some (.ok ()) })
    else (store, { pc := 2, outcome := some (.error "E11000 duplicate key error") })
  | _ => (store, c)

/-- Scheduler step: `false` lets processor A take its next store operation,
`true` lets processor B. -/
def dupStep (s : DupSt) (moveB : Bool) : DupSt :=
  if moveB then
    let r := dupClientStep s.count s.b
    { s with count := r.1, b := r.2 }
  else
    let r := dupClientStep s.count s.a
    { s with count := r.1, a := r.2 }

/-- Run a schedule of interleaved store operations. -/
def dupRun (sched : List Bool) (s : DupSt) : DupSt :=
  sched.foldl dupStep s

/-- Two processors, empty store: no record with the contested key yet. -/
def dupInit : DupSt := ⟨0, ⟨0, none⟩, ⟨0, none⟩⟩

/-- Modelled from the spec: the atomic unique-key upsert the claim says the
executor uses — one indivisible store operation that creates the record when
absent and adopts the existing one otherwise; it succeeds for every caller and
never raises a duplicate-key error. -/
def specAtomicUpsert (store : Nat) : Nat × Except String Unit :=
  (if store = 0 then 1 else store, .ok ())

/-- In-memory pool state: `workers` is `this.workers` (worker ids), `supervised`
records which workers had `on('error')`/`on('exit')` handlers attached (only
those created in `initialize()` do — `handleWorkerError`/`handleWorkerExit`
push replacements without attaching handlers), `active` is `activeWorkers`,
`queue` the pending-request queue, `nextId` a fresh-id supply. -/
structure PoolSt where
  workers : List Nat
  supervised : List Nat
  active : List Nat
  queue : List JobData
  nextId : Nat
deriving Repr, DecidableEq

/-- `initialize(n)`: `n` workers, each with pool-level fault handlers. -/
def poolInit (n : Nat) : PoolSt :=
  { workers := List.range n, supervised := List.range n, active := [],
    queue := [], nextId := n }

/-- Effect of a worker fault during an assignment. -/
structure FaultResult where
  st : PoolSt
  callerRejected : Bool
deriving Repr, DecidableEq

/-- A worker `w` faults while processing an assignment. The pool-level
`on('error')` handler (`handleWorkerError`: splice out the worker, drop it
from the active set, push a replacement) runs only if `w` was created in
`initialize()`; the per-assignment `once('error')` handler always rejects the
caller's promise and removes `w` from the active set. The replacement worker
is pushed without any pool-level handlers. -/
def faultWhileAssigned (st : PoolSt) (w : Nat) : FaultResult :=
  let st1 :=
    if w ∈ st.supervised then
      if w ∈ st.workers then
        { st with workers := st.workers.erase w ++ [st.nextId],
                  active := st.active.erase w,
                  nextId := st.nextId + 1 }
      else { st with active := st.active.erase w }
    else st
  { st := { st1 with active := st1.active.erase w }, callerRejected := true }

/-- `WorkerPool.terminate()`: signal `terminate()` to every worker in the
list (returned as the signal list), then clear the worker list, the active
set and the pending queue. Errors from individual terminations are swallowed
by the surrounding try/catch, so the operation always succeeds. -/
def terminate (st : PoolSt) : PoolSt × List Nat :=
  ({ st with workers := [], active := [], queue := [] }, st.workers)

/-- Per-record invariant of the Job collection. -/
def jobInv (j : JobRec) : Prop :=
  1 ≤ j.totalImages ∧ j.completedImages ≤ j.totalImages ∧
  (j.status = "processing" → j.completedImages < j.totalImages) ∧
  (j.status = "processing" ∨ j.status = "completed" ∨ j.status = "failed")

instance (j : JobRec) : Decidable (jobInv j) := by
  unfold jobInv; infer_instance

/-- Collection invariant: every record satisfies `jobInv` and the unique index
on `jobId` holds (no two records share a key). -/
def storeInv (jobs : List JobRec) : Prop :=
  (∀ j ∈ jobs, jobInv j) ∧ (jobs.map (fun j => j.jobId)).Nodup

theorem findJob_nil (k : String) : findJob [] k = none := rfl

theorem findJob_cons (j : JobRec) (jobs : List JobRec) (k : String) :
    findJob (j :: jobs) k = if j.jobId = k then some j else findJob jobs k := by
  by_cases h : j.jobId = k
  · simp [findJob, List.find?_cons_of_pos, h]
  · simp [findJob, List.find?_cons_of_neg, h]

theorem findJob_eq_none_iff (jobs : List JobRec) (k : String) :
    findJob jobs k = none ↔ ∀ j ∈ jobs, j.jobId ≠ k := by
  simp [findJob, List.find?_eq_none]

theorem findJob_some (jobs : List JobRec) (k : String) (j : JobRec)
    (h : findJob jobs k = some j) : j ∈ jobs ∧ j.jobId = k := by
  refine ⟨List.mem_of_find?_eq_some h, ?_⟩
  have := List.find?_some h
  simpa using this

theorem findJob_append (l1 l2 : List JobRec) (k : String) :
    findJob (l1 ++ l2) k =
      match findJob l1 k with
      | some j => some j
      | none => findJob l2 k := by
  induction l1 with
  | nil => simp [findJob]
  | cons j rest ih =>
    by_cases h : j.jobId = k
    · simp [List.cons_append, findJob_cons, h]
    · simpa [List.cons_append, findJob_cons, h] using ih

theorem jobUpdate_nil (k : String) (f : JobRec → JobRec) : jobUpdate [] k f = [] := rfl

theorem jobUpdate_cons (j : JobRec) (jobs : List JobRec) (k : String) (f : JobRec → JobRec) :
    jobUpdate (j :: jobs) k f =
      (if j.jobId = k then f j else j) :: jobUpdate jobs k f := rfl

theorem findJob_jobUpdate (jobs : List JobRec) (k : String) (f : JobRec → JobRec)
    (hf : ∀ j, (f j).jobId = j.jobId) :
    findJob (jobUpdate jobs k f) k = (findJob jobs k).map f := by
  induction jobs with
  | nil => rfl
  | cons j rest ih =>
    by_cases h : j.jobId = k
    · simp [jobUpdate_cons, findJob_cons, h, hf]
    · simpa [jobUpdate_cons, findJob_cons, h, hf] using ih

theorem jobUpdate_keys (jobs : List JobRec) (k : String) (f : JobRec → JobRec)
    (hf : ∀ j, (f j).jobId = j.jobId) :
    (jobUpdate jobs k f).map (fun j => j.jobId) = jobs.map (fun j => j.jobId) := by
  induction jobs with
  | nil => rfl
  | cons j rest ih =>
    by_cases h : j.jobId = k <;> simp [jobUpdate_cons, h, hf, ih]

theorem mem_jobUpdate (jobs : List JobRec) (k : String) (f : JobRec → JobRec)
    (j' : JobRec) (h : j' ∈ jobUpdate jobs k f) :
    ∃ j ∈ jobs, j' = if j.jobId = k then f j else j := by
  simpa [jobUpdate, eq_comm] using List.mem_map.mp h

theorem findJob_unique (jobs : List JobRec) (k : String)
    (hnd : (jobs.map (fun j => j.jobId)).Nodup) (j0 j : JobRec)
    (h0 : findJob jobs k = some j0) (hj : j ∈ jobs) (hk : j.jobId = k) : j = j0 := by
  induction jobs with
  | nil => cases hj
  | cons a rest ih =>
    rw [findJob_cons] at h0
    rw [List.map_cons, List.nodup_cons] at hnd
    by_cases ha : a.jobId = k
    · rw [if_pos ha] at h0
      cases List.mem_cons.mp hj with
      | inl h => rw [h]; exact Option.some.inj h0
      | inr h =>
        exfalso
        exact hnd.1 (by rw [ha, ← hk]; exact List.mem_map_of_mem _ h)
    · rw [if_neg ha] at h0
      cases List.mem_cons.mp hj with
      | inl h => exact absurd (h ▸ hk) ha
      | inr h => exact ih hnd.2 h0 h

theorem ensureJob_key (jobs : List JobRec) (k s u : String) (t : Option Nat) :
    (ensureJob jobs k s u t).1.jobId = k := by
  unfold ensureJob
  cases h : findJob jobs k with
  | some j => simpa using (findJob_some jobs k j h).2
  | none => rfl

theorem ensureJob_find (jobs : List JobRec) (k s u : String) (t : Option Nat) :
    findJob (ensureJob jobs k s u t).2 k = some (ensureJob jobs k s u t).1 := by
  unfold ensureJob
  cases h : findJob jobs k with
  | some j => simpa using h
  | none => simp [findJob_append, h, findJob_cons]

theorem jsOrOne_pos (o : Option Nat) : 1 ≤ jsOrOne o := by
  cases o with
  | none => simp [jsOrOne]
  | some v =>
    by_cases h : v = 0 <;> simp [jsOrOne, h] <;> try omega

theorem ensureJob_inv (jobs : List JobRec) (k s u : String) (t : Option Nat)
    (hinv : storeInv jobs) :
    storeInv (ensureJob jobs k s u t).2 ∧ jobInv (ensureJob jobs k s u t).1 := by
  unfold ensureJob
  cases h : findJob jobs k with
  | some j =>
    have hj := findJob_some jobs k j h
    exact ⟨hinv, hinv.1 j hj.1⟩
  | none =>
    have hfresh : ∀ j ∈ jobs, j.jobId ≠ k := (findJob_eq_none_iff jobs k).mp h
    have hnew : jobInv
        { jobId := k, scriptId := s, userId := u, totalImages := jsOrOne t,
          completedImages := 0, status := "processing", imageIds := [], error := none } := by
      refine ⟨jsOrOne_pos t, Nat.zero_le _, fun _ => ?_, Or.inl rfl⟩
      exact lt_of_lt_of_le Nat.zero_lt_one (jsOrOne_pos t)
    refine ⟨⟨?_, ?_⟩, hnew⟩
    · intro j hj
      rcases List.mem_append.mp hj with hmem | hmem
      · exact hinv.1 j hmem
      · simpa using (List.mem_singleton.mp hmem) ▸ hnew
    · rw [List.map_append]
      simp only [List.map_cons, List.map_nil]
      rw [List.nodup_append]
      refine ⟨hinv.2, List.nodup_singleton _, ?_⟩
      intro a ha hb
      simp only [List.mem_singleton] at hb
      rcases List.mem_map.mp ha with ⟨j, hj, rfl⟩
      exact hfresh j hj hb

theorem withRetryGo_zero (op : Nat → Except ε α) (base i : Nat) (lastE : Option ε) :
    withRetryGo op base 0 i lastE = ⟨.error lastE, i, []⟩ := rfl

theorem withRetryGo_succ (op : Nat → Except ε α) (base fuel i : Nat) (lastE : Option ε) :
    withRetryGo op base (fuel + 1) i lastE =
      match op i with
      | .ok a => ⟨.ok a, i + 1, []⟩
      | .error e =>
        let rest := withRetryGo op base fuel (i + 1) (some e)
        if 0 < fuel then ⟨rest.result, rest.attempts, base * (i + 1) :: rest.delays⟩
        else rest := rfl

/-- Full unfolding of a 3-attempt `withRetry` run. -/
theorem withRetry_three (op : Nat → Except ε α) :
    withRetry op 3 =
      match op 0, op 1, op 2 with
      | .ok a, _, _ => ⟨.ok a, 1, []⟩
      | .error _, .ok a, _ => ⟨.ok a, 2, [2000]⟩
      | .error _, .error _, .ok a => ⟨.ok a, 3, [2000, 4000]⟩
      | .error _, .error _, .error e2 => ⟨.error (some e2), 3, [2000, 4000]⟩ := by
  have h : withRetry op 3 = withRetryGo op 2000 (2 + 1) 0 none := rfl
  rw [h, withRetryGo_succ]
  rcases h0 : op 0 with e0 | a0
  · have h2 : withRetryGo op 2000 2 (0 + 1) (some e0) = withRetryGo op 2000 (1 + 1) 1 (some e0) := rfl
    simp only [h0, h2, withRetryGo_succ]
    rcases h1 : op 1 with e1 | a1
    · have h3 : withRetryGo op 2000 1 (1 + 1) (some e1) = withRetryGo op 2000 (0 + 1) 2 (some e1) := rfl
      simp only [h1, h3, withRetryGo_succ]
      rcases h4 : op 2 with e2 | a2 <;> simp [h4, withRetryGo_zero]
    · simp [h1]
  · simp [h0]

/-- The store-facing shape of `imageService.generateImage` with the three
required fields present: it never throws, appends exactly one Image record
with `status = "generated"`, and carries the fallback URL and captured error
exactly on the catch path. -/
theorem service_shape (params : GenParams) (env : ServiceEnv) (store : List ImageRec)
    (prompt scriptId splitScriptId : String)
    (hp : params.prompt = some prompt) (hs : params.scriptId = some scriptId)
    (hss : params.splitScriptId = some splitScriptId) :
    ∃ res rec, serviceGenerateImage params env store = .ok (res, store ++ [rec]) ∧
      res.status = "generated" ∧ rec.status = "generated" ∧ res.data.status = "generated" ∧
      res.data.imageId = store.length ∧ res.data.url = rec.url ∧ res.error = rec.error ∧
      (res.error.isSome ↔ serviceFailed env = true) ∧
      (serviceFailed env = true →
        rec.url = defaultImageUrl ∧ res.error = some (serviceErrorMsg env)) ∧
      (serviceFailed env = false → res.error = none) := by
  rcases hgen : (withRetry env.genAttempt MAX_RETRIES).result with e | u
  · have hserv : serviceGenerateImage params env store =
        .ok ({ status := "generated", error := some (retryErrMsg e),
               data := { imageId := store.length, url := defaultImageUrl,
                         status := "generated", prompt,
                         style := params.style.getD "anime",
                         resolution := params.resolution, scriptId, splitScriptId,
                         error := some (retryErrMsg e) } },
             store ++ [{ splitScriptId, scriptId, prompt,
                         style := params.style.getD "anime",
                         resolution := params.resolution, url := defaultImageUrl,
                         status := "generated", error := some (retryErrMsg e) }]) := by
      simp [serviceGenerateImage, hp, hs, hss, hgen, serviceCatch]
    exact ⟨_, _, hserv, rfl, rfl, rfl, rfl, rfl, rfl,
      by simp [serviceFailed, hgen],
      fun _ => ⟨rfl, by simp [serviceErrorMsg, hgen]⟩,
      by simp [serviceFailed, hgen]⟩
  · rcases hbuf : env.bufferResult with e | v
    · have hserv : serviceGenerateImage params env store =
          .ok ({ status := "generated", error := some e,
                 data := { imageId := store.length, url := defaultImageUrl,
                           status := "generated", prompt,
                           style := params.style.getD "anime",
                           resolution := params.resolution, scriptId, splitScriptId,
                           error := some e } },
               store ++ [{ splitScriptId, scriptId, prompt,
                           style := params.style.getD "anime",
                           resolution := params.resolution, url := defaultImageUrl,
                           status := "generated", error := some e }]) := by
        simp [serviceGenerateImage, hp, hs, hss, hgen, hbuf, serviceCatch]
      exact ⟨_, _, hserv, rfl, rfl, rfl, rfl, rfl, rfl,
        by simp [serviceFailed, hgen, hbuf],
        fun _ => ⟨rfl, by simp [serviceErrorMsg, hgen, hbuf]⟩,
        by simp [serviceFailed, hgen, hbuf]⟩
    · rcases hup : (withRetry env.uploadAttempt MAX_RETRIES).result with e | url
      · have hserv : serviceGenerateImage params env store =
            .ok ({ status := "generated", error := some (retryErrMsg e),
                   data := { imageId := store.length, url := defaultImageUrl,
                             status := "generated", prompt,
                             style := params.style.getD "anime",
                             resolution := params.resolution, scriptId, splitScriptId,
                             error := some (retryErrMsg e) } },
                 store ++ [{ splitScriptId, scriptId, prompt,
                             style := params.style.getD "anime",
                             resolution := params.resolution, url := defaultImageUrl,
                             status := "generated", error := some (retryErrMsg e) }]) := by
          simp [serviceGenerateImage, hp, hs, hss, hgen, hbuf, hup, serviceCatch]
        exact ⟨_, _, hserv, rfl, rfl, rfl, rfl, rfl, rfl,
          by simp [serviceFailed, hgen, hbuf, hup],
          fun _ => ⟨rfl, by simp [serviceErrorMsg, hgen, hbuf, hup]⟩,
          by simp [serviceFailed, hgen, hbuf, hup]⟩
      · have hserv : serviceGenerateImage params env store =
            .ok ({ status := "generated", error := none,
                   data := { imageId := store.length, url,
                             status := "generated", prompt,
                             style := params.style.getD "anime",
                             resolution := params.resolution, scriptId, splitScriptId,
                             error := none } },
                 store ++ [{ splitScriptId, scriptId, prompt,
                             style := params.style.getD "anime",
                             resolution := params.resolution, url,
                             status := "generated", error := none }]) := by
          simp [serviceGenerateImage, hp, hs, hss, hgen, hbuf, hup]
        refine ⟨_, _, hserv, rfl, rfl, rfl, rfl, rfl, rfl,
          by simp [serviceFailed, hgen, hbuf, hup],
          fun hc => ?_, fun _ => rfl⟩
        exfalso
        simp [serviceFailed, hgen, hbuf, hup] at hc

/- Concrete sample inputs used by witnesses and counterexamples. -/

/-- A well-formed queue message for job "J2" with `totalImage = 1`. -/
def jdJ2 : JobData :=
  { jobId := some "J2", userId := some "u1", prompt := some "a cat",
    scriptId := some "s1", splitScriptId := some "ss1", style := none,
    resolution := none, totalImage := some 1 }

/-- Service parameters with all required fields present. -/
def sampleParams : GenParams :=
  { prompt := some "a cat", style := some "anime", resolution := "1024x1024",
    scriptId := some "s1", splitScriptId := some "ss1" }

/-- Effects oracle: every generation attempt fails (retries exhaust). -/
def envAllFail : ServiceEnv :=
  { genAttempt := fun _ => .error "HuggingFace API error: boom",
    bufferResult := .ok (),
    uploadAttempt := fun _ => .ok "https://res.cloudinary.com/ok.png" }

/-- Effects oracle: generation fails twice and succeeds on the third attempt. -/
def envThirdTry : ServiceEnv :=
  { genAttempt := fun i => if i < 2 then .error "HuggingFace API error: 503" else .ok (),
    bufferResult := .ok (),
    uploadAttempt := fun _ => .ok "https://res.cloudinary.com/ok.png" }

/-- Effects oracle: everything succeeds first try. -/
def envOk : ServiceEnv :=
  { genAttempt := fun _ => .ok (), bufferResult := .ok (),
    uploadAttempt := fun _ => .ok "https://res.cloudinary.com/ok.png" }

/-- Attempt oracle failing twice, then succeeding. -/
def retryOpSample : Nat → Except String String := fun i =>
  if i = 0 then .error "e0" else if i = 1 then .error "e1" else .ok "img"

/-- C5: the retry wrapper makes at most 3 attempts, returns the first success,
sleeps `RETRY_DELAY × attemptNumber` between failed attempts (never after the
last), rethrows the last error when all attempts fail, and a generation call
failing twice then succeeding on the third attempt still yields an Item record
with `status = "generated"` and no failure flag. -/
theorem c5_retry_policy (op : Nat → Except String String) :
    (withRetry op 3).attempts ≤ 3 ∧
    (∀ a, op 0 = .ok a → withRetry op 3 = ⟨.ok a, 1, []⟩) ∧
    (∀ e0 a, op 0 = .error e0 → op 1 = .ok a → withRetry op 3 = ⟨.ok a, 2, [2000]⟩) ∧
    (∀ e0 e1 a, op 0 = .error e0 → op 1 = .error e1 → op 2 = .ok a →
      withRetry op 3 = ⟨.ok a, 3, [2000, 4000]⟩) ∧
    (∀ e0 e1 e2, op 0 = .error e0 → op 1 = .error e1 → op 2 = .error e2 →
      withRetry op 3 = ⟨.error (some e2), 3, [2000, 4000]⟩) ∧
    (∀ (params : GenParams) (env : ServiceEnv) (store : List ImageRec)
        (prompt scriptId splitScriptId u e0 e1 : String),
      params.prompt = some prompt → params.scriptId = some scriptId →
      params.splitScriptId = some splitScriptId →
      env.genAttempt 0 = .error e0 → env.genAttempt 1 = .error e1 →
      env.genAttempt 2 = .ok () → env.bufferResult = .ok () →
      (withRetry env.uploadAttempt MAX_RETRIES).result = .ok u →
      ∃ res rec, serviceGenerateImage params env store = .ok (res, store ++ [rec]) ∧
        rec.status = "generated" ∧ rec.error = none ∧ res.error = none ∧
        res.status = "generated") := by
  refine ⟨?_, ?_, ?_, ?_, ?_, ?_⟩
  · rw [withRetry_three op]
    rcases op 0 with e0 | a0 <;> rcases op 1 with e1 | a1 <;> rcases op 2 with e2 | a2 <;> simp
  · intro a h0; rw [withRetry_three op, h0]
  · intro e0 a h0 h1; rw [withRetry_three op, h0, h1]
  · intro e0 e1 a h0 h1 h2; rw [withRetry_three op, h0, h1, h2]
  · intro e0 e1 e2 h0 h1 h2; rw [withRetry_three op, h0, h1, h2]
  · intro params env store prompt scriptId splitScriptId u e0 e1 hp hs hss hg0 hg1 hg2 hbuf hup
    have hgen : (withRetry env.genAttempt MAX_RETRIES).result = .ok () := by
      rw [show MAX_RETRIES = 3 from rfl, withRetry_three, hg0, hg1, hg2]
    have hserv : serviceGenerateImage params env store =
        .ok ({ status := "generated", error := none,
               data := { imageId := store.length, url := u,
                         status := "generated", prompt,
                         style := params.style.getD "anime",
                         resolution := params.resolution, scriptId, splitScriptId,
                         error := none } },
             store ++ [{ splitScriptId, scriptId, prompt,
                         style := params.style.getD "anime",
                         resolution := params.resolution, url := u,
                         status := "generated", error := none }]) := by
      simp [serviceGenerateImage, hp, hs, hss, hgen, hbuf, hup]
    exact ⟨_, _, hserv, rfl, rfl, rfl, rfl⟩

/-- Witness for C5 at a concrete attempt oracle and a concrete service run. -/
theorem c5_retry_policy_witness :
    withRetry retryOpSample 3 = ⟨.ok "img", 3, [2000, 4000]⟩ ∧
    (∃ res rec, serviceGenerateImage sampleParams envThirdTry [] = .ok (res, [] ++ [rec]) ∧
      rec.status = "generated" ∧ rec.error = none ∧ res.error = none ∧
      res.status = "generated") := by
  constructor
  · exact (c5_retry_policy retryOpSample).2.2.2.1 "e0" "e1" "img" rfl rfl rfl
  · exact (c5_retry_policy retryOpSample).2.2.2.2.2 sampleParams envThirdTry []
      "a cat" "s1" "ss1" "https://res.cloudinary.com/ok.png"
      "HuggingFace API error: 503" "HuggingFace API error: 503"
      rfl rfl rfl rfl rfl rfl rfl (by decide)

/-- C2: with `prompt`, `scriptId` and `splitScriptId` present, the service
`generateImage` never throws: both paths persist an Image record with
`status = "generated"` and return a `"generated"` envelope; on the failure
path the persisted/returned url is the fixed fallback placeholder and the
error field carries the captured message; the error field is set exactly when
generation or upload failed. -/
theorem c2_service_total (params : GenParams) (env : ServiceEnv) (store : List ImageRec)
    (prompt scriptId splitScriptId : String)
    (hp : params.prompt = some prompt) (hs : params.scriptId = some scriptId)
    (hss : params.splitScriptId = some splitScriptId) :
    ∃ res rec, serviceGenerateImage params env store = .ok (res, store ++ [rec]) ∧
      res.status = "generated" ∧ rec.status = "generated" ∧
      (serviceFailed env = true →
        rec.url = defaultImageUrl ∧ res.data.url = defaultImageUrl ∧
        res.error = some (serviceErrorMsg env) ∧ rec.error = some (serviceErrorMsg env)) ∧
      (res.error.isSome ↔ serviceFailed env = true) := by
  obtain ⟨res, rec, h1, h2, h3, _, _, hurl, herr, hiff, hfail, _⟩ :=
    service_shape params env store prompt scriptId splitScriptId hp hs hss
  refine ⟨res, rec, h1, h2, h3, fun hc => ?_, hiff⟩
  obtain ⟨hu, he⟩ := hfail hc
  exact ⟨hu, by rw [hurl, hu], he, by rw [← herr, he]⟩

/-- Witness for C2 on a concrete failing run. -/
theorem c2_service_total_witness :
    ∃ res rec, serviceGenerateImage sampleParams envAllFail [] = .ok (res, [] ++ [rec]) ∧
      res.status = "generated" ∧ rec.status = "generated" ∧
      (serviceFailed envAllFail = true →
        rec.url = defaultImageUrl ∧ res.data.url = defaultImageUrl ∧
        res.error = some (serviceErrorMsg envAllFail) ∧
        rec.error = some (serviceErrorMsg envAllFail)) ∧
      (res.error.isSome ↔ serviceFailed envAllFail = true) :=
  c2_service_total sampleParams envAllFail [] "a cat" "s1" "ss1" rfl rfl rfl

/-- C7: the consumer acks a delivered message exactly when the pool outcome
resolves with a truthy `success` flag; a parse failure, a rejected pool
promise, or a resolved outcome without `success = true` all nack with requeue;
every delivered message gets exactly one of the two broker actions. -/
theorem c7_ack_iff_success (msg : Option (Except String JobData))
    (pool : JobData → PromiseOutcome) :
    (∀ content, msg = some content →
      startConsumingDecision msg pool = some ConsumerAction.ack ∨
      startConsumingDecision msg pool = some ConsumerAction.nackRequeue) ∧
    (startConsumingDecision msg pool = some ConsumerAction.ack ↔
      ∃ jobData, msg = some (.ok jobData) ∧ pool jobData = .resolved (some true)) ∧
    (∀ jobData err, msg = some (.ok jobData) → pool jobData = .rejected err →
      startConsumingDecision msg pool = some ConsumerAction.nackRequeue) ∧
    (∀ e, msg = some (.error e) →
      startConsumingDecision msg pool = some ConsumerAction.nackRequeue) := by
  refine ⟨?_, ?_, ?_, ?_⟩
  · rintro content rfl
    rcases content with e | jd
    · right; rfl
    · rcases hp : pool jd with s | err
      · by_cases hs : s = some true
        · left; simp [startConsumingDecision, hp, hs]
        · right; simp [startConsumingDecision, hp, hs]
      · right; simp [startConsumingDecision, hp]
  · constructor
    · intro h
      rcases msg with _ | content
      · simp [startConsumingDecision] at h
      · rcases content with e | jd
        · simp [startConsumingDecision] at h
        · refine ⟨jd, rfl, ?_⟩
          rcases hp : pool jd with s | err
          · simp only [startConsumingDecision, hp] at h
            by_cases hs : s = some true
            · rw [hs]
            · simp [hs] at h
          · simp [startConsumingDecision, hp] at h
    · rintro ⟨jd, rfl, hp⟩
      simp [startConsumingDecision, hp]
  · rintro jd err rfl hp
    simp [startConsumingDecision, hp]
  · rintro e rfl
    rfl

/-- Witness for C7: a truthy success flag acks. -/
theorem c7_ack_iff_success_witness :
    startConsumingDecision (some (.ok jdJ2)) (fun _ => PromiseOutcome.resolved (some true))
      = some ConsumerAction.ack :=
  (c7_ack_iff_success (some (.ok jdJ2)) (fun _ => PromiseOutcome.resolved (some true))).2.1.mpr
    ⟨jdJ2, rfl, rfl⟩

/-- C10: `terminate()` signals every worker, empties the worker list, the
active set and the pending queue, and a second call leaves the all-empty state
unchanged, signals nobody and raises no error. -/
theorem c10_terminate_idempotent (st : PoolSt) :
    (terminate st).2 = st.workers ∧
    (terminate st).1.workers = [] ∧
    (terminate st).1.active = [] ∧
    (terminate st).1.queue = [] ∧
    terminate (terminate st).1 = ((terminate st).1, []) :=
  ⟨rfl, rfl, rfl, rfl, rfl⟩

theorem dupClientStep_count (store : Nat) (c : DupClient) (h : store ≤ 1) :
    (dupClientStep store c).1 ≤ 1 := by
  rcases c with ⟨pc, o⟩
  match pc with
  | 0 =>
    simp only [dupClientStep]
    split <;> simpa
  | 1 =>
    simp only [dupClientStep]
    split <;> omega
  | (n + 2) => simpa [dupClientStep] using h

theorem dupStep_count (s : DupSt) (b : Bool) (h : s.count ≤ 1) :
    (dupStep s b).count ≤ 1 := by
  cases b <;> simpa [dupStep] using dupClientStep_count s.count _ h

theorem dupRun_count (sched : List Bool) (s : DupSt) (h : s.count ≤ 1) :
    (dupRun sched s).count ≤ 1 := by
  induction sched generalizing s with
  | nil => simpa [dupRun]
  | cons b rest ih =>
    have : dupRun (b :: rest) s = dupRun rest (dupStep s b) := by
      simp [dupRun]
    rw [this]
    exact ih _ (dupStep_count s b h)

/-- C6 counterexample: the code's find-or-create is an application-level
check-then-insert, not one atomic store operation — there is an interleaving
of two creators of the same `jobKey` (both `findOne` calls before either
`save`) in which the second `save` fails with the duplicate-key error of the
unique index, an observation impossible under the claimed atomic upsert
(which succeeds for every caller, first or second). -/
theorem c6_counterexample :
    (dupRun [false, true, false, true] dupInit).a.outcome = some (.ok ()) ∧
    (dupRun [false, true, false, true] dupInit).b.outcome
      = some (.error "E11000 duplicate key error") ∧
    (specAtomicUpsert 0).2 = .ok () ∧
    (specAtomicUpsert (specAtomicUpsert 0).1).2 = .ok () ∧
    (specAtomicUpsert (specAtomicUpsert 0).1).1 = 1 := by
  refine ⟨?_, ?_, rfl, rfl, rfl⟩ <;> rfl

/-- C6 (amended): the executor finds-or-creates with `findOne` followed by a
conditional `save`; the unique index on `jobId` still guarantees two
concurrent processors never produce two Job records — in every interleaving at
most one record with the key exists, the second inserter failing with a
duplicate-key error instead of creating a duplicate. -/
theorem c6_no_duplicates_amended (sched : List Bool) :
    (dupRun sched dupInit).count ≤ 1 ∧
    (dupRun [false, true, false, true] dupInit).count = 1 ∧
    (dupRun [false, true, false, true] dupInit).b.outcome
      = some (.error "E11000 duplicate key error") :=
  ⟨dupRun_count sched dupInit (by decide), rfl, rfl⟩

/-- Witness for C6 (amended) at the contested interleaving. -/
theorem c6_no_duplicates_amended_witness :
    (dupRun [false, true, false, true] dupInit).count ≤ 1 ∧
    (dupRun [false, true, false, true] dupInit).count = 1 ∧
    (dupRun [false, true, false, true] dupInit).b.outcome
      = some (.error "E11000 duplicate key error") :=
  c6_no_duplicates_amended [false, true, false, true]

/-- A pool state with live workers, an active assignment and a queued request. -/
def busyPool : PoolSt :=
  { workers := [0, 1], supervised := [0, 1], active := [1], queue := [jdJ2], nextId := 2 }

/-- Witness for C10 on a busy pool. -/
theorem c10_terminate_idempotent_witness :
    (terminate busyPool).2 = busyPool.workers ∧
    (terminate busyPool).1.workers = [] ∧
    (terminate busyPool).1.active = [] ∧
    (terminate busyPool).1.queue = [] ∧
    terminate (terminate busyPool).1 = ((terminate busyPool).1, []) :=
  c10_terminate_idempotent busyPool

/-- C8 (code bug): fault handlers are attached only in `initialize()`, so the
first fault of the initial worker of a size-1 pool is handled as the claim
says (worker removed, replacement spawned, caller rejected), but when the
replacement itself faults while assigned, the caller is rejected and the
active slot freed, yet the dead replacement stays in the worker list and no
new worker is spawned (`nextId` unchanged). -/
theorem c8_replacement_not_supervised :
    (faultWhileAssigned (poolInit 1) 0).callerRejected = true ∧
    (faultWhileAssigned (poolInit 1) 0).st.workers = [1] ∧
    (faultWhileAssigned (poolInit 1) 0).st.workers.length = 1 ∧
    (faultWhileAssigned (faultWhileAssigned (poolInit 1) 0).st 1).callerRejected = true ∧
    (faultWhileAssigned (faultWhileAssigned (poolInit 1) 0).st 1).st.workers = [1] ∧
    (faultWhileAssigned (faultWhileAssigned (poolInit 1) 0).st 1).st.nextId
      = (faultWhileAssigned (poolInit 1) 0).st.nextId := by
  refine ⟨rfl, ?_, ?_, rfl, ?_, rfl⟩ <;> decide

theorem ensureJob_status (jobs : List JobRec) (k s u : String) (t : Option Nat)
    (hstat : ∀ j, findJob jobs k = some j → j.status = "processing") :
    (ensureJob jobs k s u t).1.status = "processing" := by
  unfold ensureJob
  cases h : findJob jobs k with
  | some j => simpa using hstat j h
  | none => rfl

/-- The result of the worker's success path, as a function of the
found-or-created job `fc`, the service envelope and the new image store:
increment-and-push, then mark completed (emitting `jobCompleted`) exactly when
the post-increment counter reaches the total. -/
def workerSuccessResult (fc : JobRec × List JobRec) (jobId userId : String)
    (res : ServiceResult) (images' : List ImageRec) : WorkerSt × List OutMsg :=
  let job0 := fc.1
  let jobs1 := jobUpdate fc.2 jobId (fun j =>
    { j with completedImages := j.completedImages + 1,
             imageIds := j.imageIds ++ [res.data.imageId] })
  if job0.totalImages ≤ job0.completedImages + 1 then
    ({ jobs := jobUpdate jobs1 jobId (fun j => { j with status := "completed" }),
       images := images' },
     [OutMsg.jobCompleted (some jobId) (some userId) (job0.completedImages + 1)
        job0.totalImages (job0.imageIds ++ [res.data.imageId]),
      OutMsg.imageGenerated true res.data job0.completedImages job0.totalImages
        (job0.status = "completed")])
  else
    ({ jobs := jobs1, images := images' },
     [OutMsg.imageGenerated true res.data job0.completedImages job0.totalImages
        (job0.status = "completed")])

/-- Symbolic execution of the worker's valid-field path: the service call
always returns a `"generated"` envelope, so a run is exactly
`workerSuccessResult` of the found-or-created job. -/
theorem worker_valid_run (jobData : JobData) (env : ServiceEnv) (st : WorkerSt)
    (jobId userId prompt scriptId splitScriptId : String)
    (h1 : jobData.jobId = some jobId) (h2 : jobData.userId = some userId)
    (h3 : jobData.prompt = some prompt) (h4 : jobData.scriptId = some scriptId)
    (h5 : jobData.splitScriptId = some splitScriptId) :
    ∃ res images', res.status = "generated" ∧
      serviceGenerateImage
        { prompt := some prompt, style := some (jobData.style.getD "realistic"),
          resolution := jobData.resolution.getD "1024x1024",
          scriptId := some scriptId, splitScriptId := some splitScriptId }
        env st.images = .ok (res, images') ∧
      workerGenerateImage jobData env st =
        workerSuccessResult (ensureJob st.jobs jobId scriptId userId jobData.totalImage)
          jobId userId res images' := by
  obtain ⟨res, rec, hserv, hres, -⟩ :=
    service_shape
      { prompt := some prompt, style := some (jobData.style.getD "realistic"),
        resolution := jobData.resolution.getD "1024x1024",
        scriptId := some scriptId, splitScriptId := some splitScriptId }
      env st.images prompt scriptId splitScriptId rfl rfl rfl
  refine ⟨res, st.images ++ [rec], hres, hserv, ?_⟩
  have hfind1 : findJob
      (jobUpdate (ensureJob st.jobs jobId scriptId userId jobData.totalImage).2 jobId
        (fun j => { j with completedImages := j.completedImages + 1,
                           imageIds := j.imageIds ++ [res.data.imageId] })) jobId
      = some { (ensureJob st.jobs jobId scriptId userId jobData.totalImage).1 with
                 completedImages :=
                   (ensureJob st.jobs jobId scriptId userId jobData.totalImage).1.completedImages + 1,
                 imageIds :=
                   (ensureJob st.jobs jobId scriptId userId jobData.totalImage).1.imageIds
                     ++ [res.data.imageId] } := by
    rw [findJob_jobUpdate (ensureJob st.jobs jobId scriptId userId jobData.totalImage).2 jobId
        (fun j => { j with completedImages := j.completedImages + 1,
                           imageIds := j.imageIds ++ [res.data.imageId] })
        (fun j => rfl),
      ensureJob_find st.jobs jobId scriptId userId jobData.totalImage]
    rfl
  simp only [workerGenerateImage, h1, h2, h3, h4, h5]
  rw [hserv]
  simp only [hres, if_pos, hfind1, workerSuccessResult]

/-- C9: for a message whose job already has a terminal status, `processJob`
returns a snapshot envelope immediately: the store is untouched, no worker
runs, the envelope has no `success` flag, and the consumer therefore nacks
the message with requeue. -/
theorem c9_terminal_snapshot (jobData : JobData) (env : ServiceEnv) (st : WorkerSt)
    (jobId userId prompt scriptId splitScriptId : String) (job : JobRec)
    (h1 : jobData.jobId = some jobId) (h2 : jobData.userId = some userId)
    (h3 : jobData.prompt = some prompt) (h4 : jobData.scriptId = some scriptId)
    (h5 : jobData.splitScriptId = some splitScriptId)
    (hfind : findJob st.jobs jobId = some job)
    (hterm : job.status = "completed" ∨ job.status = "failed") :
    poolProcessJob jobData env st =
      (st, .terminal job.status job.jobId job.completedImages job.totalImages job.imageIds) ∧
    outcomeSuccess (poolProcessJob jobData env st).2 = none ∧
    startConsumingDecision (some (.ok jobData))
        (fun jd => PromiseOutcome.resolved (outcomeSuccess (poolProcessJob jd env st).2))
      = some ConsumerAction.nackRequeue := by
  have hens : ensureJob st.jobs jobId scriptId userId jobData.totalImage = (job, st.jobs) := by
    unfold ensureJob; rw [hfind]
  have hmain : poolProcessJob jobData env st =
      (st, .terminal job.status job.jobId job.completedImages job.totalImages job.imageIds) := by
    simp only [poolProcessJob, h1, h2, h3, h4, h5, hens]
    rw [if_pos hterm]
  refine ⟨hmain, ?_, ?_⟩
  · rw [hmain]; rfl
  · simp only [startConsumingDecision, hmain]
    rfl

/-- Witness store for C9: a job already completed. -/
def jobDone : JobRec :=
  { jobId := "J2", scriptId := "s1", userId := "u1", totalImages := 1,
    completedImages := 1, status := "completed", imageIds := [0], error := none }

/-- Witness for C9 on a store holding a completed job "J2". -/
theorem c9_terminal_snapshot_witness :
    poolProcessJob jdJ2 envOk ⟨[jobDone], []⟩ =
      (⟨[jobDone], []⟩,
        .terminal jobDone.status jobDone.jobId jobDone.completedImages
          jobDone.totalImages jobDone.imageIds) ∧
    outcomeSuccess (poolProcessJob jdJ2 envOk ⟨[jobDone], []⟩).2 = none ∧
    startConsumingDecision (some (.ok jdJ2))
        (fun jd => PromiseOutcome.resolved
          (outcomeSuccess (poolProcessJob jd envOk ⟨[jobDone], []⟩).2))
      = some ConsumerAction.nackRequeue :=
  c9_terminal_snapshot jdJ2 envOk ⟨[jobDone], []⟩ "J2" "u1" "a cat" "s1" "ss1" jobDone
    rfl rfl rfl rfl rfl (by decide) (Or.inl rfl)

/-- C1 counterexample: job "J2" with `totalItems = 1` whose single item
exhausts its generation retries while `imageIds` is empty ends with
`status = "completed"`, not `"failed"`, and no `jobFailed` outcome is emitted:
the service converts exhausted retries into a fallback `"generated"` envelope
that the worker counts as a success. -/
theorem c1_counterexample :
    (workerGenerateImage jdJ2 envAllFail ⟨[], []⟩).1.jobs.map
        (fun j => (j.jobId, j.status)) = [("J2", "completed")] ∧
    ¬ (workerGenerateImage jdJ2 envAllFail ⟨[], []⟩).1.jobs.map
        (fun j => (j.jobId, j.status)) = [("J2", "failed")] ∧
    (workerGenerateImage jdJ2 envAllFail ⟨[], []⟩).2.all
        (fun m => !m.isJobFailedMsg) = true ∧
    (workerGenerateImage jdJ2 envAllFail ⟨[], []⟩).2.any
        (fun m => m.isJobCompletedMsg) = true := by
  refine ⟨?_, ?_, ?_, ?_⟩ <;> decide

/-- C1 (amended): when the worker's processing throws — in this embedding,
when required-field validation fails — and the job's `imageIds` is still
empty, the job's status is set to `"failed"` and a `jobFailed` outcome is
emitted; if `imageIds` is non-empty, the store is left unchanged (the status
stays `"processing"` if it was) and no `jobFailed` outcome is emitted. An
item that merely exhausts its generation retries never reaches this path: the
service returns a fallback `"generated"` envelope, so a `totalItems = 1` job
whose single item exhausts retries ends `"completed"`, not `"failed"`. -/
theorem c1_failure_policy_amended :
    (∀ (jobData : JobData) (env : ServiceEnv) (st : WorkerSt) (jid : String) (job : JobRec),
      jobData.jobId = some jid →
      (jobData.userId = none ∨ jobData.prompt = none ∨ jobData.scriptId = none ∨
        jobData.splitScriptId = none) →
      findJob st.jobs jid = some job →
      (job.imageIds = [] →
        findJob (workerGenerateImage jobData env st).1.jobs jid =
          some { job with status := "failed", error := some missingFieldsMsg } ∧
        OutMsg.jobFailed jobData.jobId jobData.userId missingFieldsMsg
          ∈ (workerGenerateImage jobData env st).2) ∧
      (job.imageIds ≠ [] →
        (workerGenerateImage jobData env st).1 = st ∧
        ∀ m ∈ (workerGenerateImage jobData env st).2, m.isJobFailedMsg = false)) ∧
    ((workerGenerateImage jdJ2 envAllFail ⟨[], []⟩).1.jobs.map
        (fun j => (j.jobId, j.status)) = [("J2", "completed")]) := by
  constructor
  · intro jobData env st jid job hjid hinvalid hfind
    have hcatch : workerGenerateImage jobData env st = workerCatch jobData missingFieldsMsg st := by
      rcases hu : jobData.userId with _ | u
      · simp [workerGenerateImage, hjid, hu]
      · rcases hpr : jobData.prompt with _ | p
        · simp [workerGenerateImage, hjid, hu, hpr]
        · rcases hsc : jobData.scriptId with _ | s
          · simp [workerGenerateImage, hjid, hu, hpr, hsc]
          · rcases hsp : jobData.splitScriptId with _ | ss
            · simp [workerGenerateImage, hjid, hu, hpr, hsc, hsp]
            · rcases hinvalid with h | h | h | h <;> simp_all
    rw [hcatch]
    constructor
    · intro hempty
      have hres : workerCatch jobData missingFieldsMsg st =
          ({ jobs := jobUpdate st.jobs jid
              (fun j => { j with status := "failed", error := some missingFieldsMsg }),
             images := st.images },
           [OutMsg.jobFailed jobData.jobId jobData.userId missingFieldsMsg,
            OutMsg.errorOut false missingFieldsMsg jobData.jobId jobData.userId
              defaultImageUrl]) := by
        simp only [workerCatch, hjid, hfind]
        rw [if_pos hempty]
      rw [hres]
      refine ⟨?_, List.mem_cons_self _ _⟩
      show findJob (jobUpdate st.jobs jid
          (fun j => { j with status := "failed", error := some missingFieldsMsg })) jid =
        some { job with status := "failed", error := some missingFieldsMsg }
      rw [findJob_jobUpdate st.jobs jid
          (fun j => { j with status := "failed", error := some missingFieldsMsg })
          (fun j => rfl), hfind]
      rfl
    · intro hne
      have hres : workerCatch jobData missingFieldsMsg st =
          (st, [OutMsg.errorOut false missingFieldsMsg jobData.jobId jobData.userId
            defaultImageUrl]) := by
        simp only [workerCatch, hjid, hfind]
        rw [if_neg hne]
      rw [hres]
      refine ⟨rfl, ?_⟩
      intro m hm
      rcases List.mem_singleton.mp hm with rfl
      rfl
  · decide

/-- Message missing its `splitScriptId`, for job "J2". -/
def jdNoSplit : JobData := { jdJ2 with splitScriptId := none }

/-- A fresh job record with no produced images. -/
def jobFresh : JobRec :=
  { jobId := "J2", scriptId := "s1", userId := "u1", totalImages := 1,
    completedImages := 0, status := "processing", imageIds := [], error := none }

/-- Witness for C1 (amended): a validation failure on a job with empty
`imageIds` marks it failed and emits `jobFailed`. -/
theorem c1_failure_policy_amended_witness :
    findJob (workerGenerateImage jdNoSplit envOk ⟨[jobFresh], []⟩).1.jobs "J2" =
      some { jobFresh with status := "failed", error := some missingFieldsMsg } ∧
    OutMsg.jobFailed jdNoSplit.jobId jdNoSplit.userId missingFieldsMsg
      ∈ (workerGenerateImage jdNoSplit envOk ⟨[jobFresh], []⟩).2 :=
  (c1_failure_policy_amended.1 jdNoSplit envOk ⟨[jobFresh], []⟩ "J2" jobFresh rfl
    (Or.inr (Or.inr (Or.inr rfl))) (by decide)).1 rfl

theorem worker_preserves_inv (jobData : JobData) (env : ServiceEnv) (st : WorkerSt)
    (jobId userId prompt scriptId splitScriptId : String)
    (h1 : jobData.jobId = some jobId) (h2 : jobData.userId = some userId)
    (h3 : jobData.prompt = some prompt) (h4 : jobData.scriptId = some scriptId)
    (h5 : jobData.splitScriptId = some splitScriptId)
    (hinv : storeInv st.jobs)
    (hstat : ∀ j, findJob st.jobs jobId = some j → j.status = "processing") :
    storeInv (workerGenerateImage jobData env st).1.jobs := by
  obtain ⟨res, images', hres, hserv, hrun⟩ :=
    worker_valid_run jobData env st jobId userId prompt scriptId splitScriptId h1 h2 h3 h4 h5
  rw [hrun]
  obtain ⟨hinv2, hjob0inv⟩ := ensureJob_inv st.jobs jobId scriptId userId jobData.totalImage hinv
  have hkey := ensureJob_key st.jobs jobId scriptId userId jobData.totalImage
  have hfind2 := ensureJob_find st.jobs jobId scriptId userId jobData.totalImage
  have hstat0 := ensureJob_status st.jobs jobId scriptId userId jobData.totalImage hstat
  set fc := ensureJob st.jobs jobId scriptId userId jobData.totalImage with hfc
  have hlt : fc.1.completedImages < fc.1.totalImages := hjob0inv.2.2.1 hstat0
  have huniq : ∀ j ∈ fc.2, j.jobId = jobId → j = fc.1 :=
    fun j hj hk => findJob_unique fc.2 jobId hinv2.2 fc.1 j hfind2 hj hk
  unfold workerSuccessResult
  by_cases hc : fc.1.totalImages ≤ fc.1.completedImages + 1
  · rw [if_pos hc]
    show storeInv (jobUpdate (jobUpdate fc.2 jobId
        (fun j => { j with completedImages := j.completedImages + 1,
                           imageIds := j.imageIds ++ [res.data.imageId] })) jobId
        (fun j => { j with status := "completed" }))
    constructor
    · intro j' hj'
      obtain ⟨j1, hj1, hj'eq⟩ := mem_jobUpdate _ _ _ j' hj'
      obtain ⟨j, hj, hj1eq⟩ := mem_jobUpdate _ _ _ j1 hj1
      by_cases hk : j.jobId = jobId
      · have hjeq : j = fc.1 := huniq j hj hk
        rw [if_pos hk, hjeq] at hj1eq
        have hj1k : j1.jobId = jobId := by rw [hj1eq]; exact hkey
        rw [if_pos hj1k, hj1eq] at hj'eq
        rw [hj'eq]
        refine ⟨hjob0inv.1, ?_, ?_, Or.inr (Or.inl rfl)⟩
        · show fc.1.completedImages + 1 ≤ fc.1.totalImages
          omega
        · intro h
          have hlit : ("completed" : String) = "processing" := h
          exact absurd hlit (by decide)
      · rw [if_neg hk] at hj1eq
        have hj1k : ¬ j1.jobId = jobId := by rw [hj1eq]; exact hk
        rw [if_neg hj1k, hj1eq] at hj'eq
        rw [hj'eq]
        exact hinv2.1 j hj
    · rw [jobUpdate_keys (jobUpdate fc.2 jobId
            (fun j => { j with completedImages := j.completedImages + 1,
                               imageIds := j.imageIds ++ [res.data.imageId] })) jobId
          (fun j => { j with status := "completed" }) (fun j => rfl),
        jobUpdate_keys fc.2 jobId
          (fun j => { j with completedImages := j.completedImages + 1,
                             imageIds := j.imageIds ++ [res.data.imageId] })
          (fun j => rfl)]
      exact hinv2.2
  · rw [if_neg hc]
    show storeInv (jobUpdate fc.2 jobId
        (fun j => { j with completedImages := j.completedImages + 1,
                           imageIds := j.imageIds ++ [res.data.imageId] }))
    constructor
    · intro j' hj'
      obtain ⟨j, hj, hj'eq⟩ := mem_jobUpdate _ _ _ j' hj'
      by_cases hk : j.jobId = jobId
      · have hjeq : j = fc.1 := huniq j hj hk
        rw [if_pos hk, hjeq] at hj'eq
        rw [hj'eq]
        refine ⟨hjob0inv.1, ?_, fun _ => ?_, Or.inl hstat0⟩
        · show fc.1.completedImages + 1 ≤ fc.1.totalImages
          omega
        · show fc.1.completedImages + 1 < fc.1.totalImages
          omega
      · rw [if_neg hk] at hj'eq
        rw [hj'eq]
        exact hinv2.1 j hj
    · rw [jobUpdate_keys fc.2 jobId
          (fun j => { j with completedImages := j.completedImages + 1,
                             imageIds := j.imageIds ++ [res.data.imageId] })
          (fun j => rfl)]
      exact hinv2.2

theorem pool_preserves_inv (jobData : JobData) (env : ServiceEnv) (st : WorkerSt)
    (hinv : storeInv st.jobs) : storeInv (poolProcessJob jobData env st).1.jobs := by
  rcases hj : jobData.jobId with _ | jobId
  · simpa [poolProcessJob, hj] using hinv
  rcases hu : jobData.userId with _ | userId
  · simpa [poolProcessJob, hj, hu] using hinv
  rcases hp : jobData.prompt with _ | prompt
  · simpa [poolProcessJob, hj, hu, hp] using hinv
  rcases hsc : jobData.scriptId with _ | scriptId
  · simpa [poolProcessJob, hj, hu, hp, hsc] using hinv
  rcases hsp : jobData.splitScriptId with _ | splitScriptId
  · simpa [poolProcessJob, hj, hu, hp, hsc, hsp] using hinv
  obtain ⟨hinv2, hjob0inv⟩ := ensureJob_inv st.jobs jobId scriptId userId jobData.totalImage hinv
  have hfind2 := ensureJob_find st.jobs jobId scriptId userId jobData.totalImage
  simp only [poolProcessJob, hj, hu, hp, hsc, hsp]
  by_cases hterm :
      (ensureJob st.jobs jobId scriptId userId jobData.totalImage).1.status = "completed" ∨
      (ensureJob st.jobs jobId scriptId userId jobData.totalImage).1.status = "failed"
  · rw [if_pos hterm]
    exact hinv2
  · rw [if_neg hterm]
    have hproc :
        (ensureJob st.jobs jobId scriptId userId jobData.totalImage).1.status = "processing" := by
      rcases hjob0inv.2.2.2 with h | h | h
      · exact h
      · exact absurd (Or.inl h) hterm
      · exact absurd (Or.inr h) hterm
    exact worker_preserves_inv jobData env
      { jobs := (ensureJob st.jobs jobId scriptId userId jobData.totalImage).2,
        images := st.images }
      jobId userId prompt scriptId splitScriptId hj hu hp hsc hsp hinv2
      (fun j hjf => by
        rw [hfind2] at hjf
        rw [← Option.some.inj hjf]
        exact hproc)

theorem runMsgs_inv (msgs : List (JobData × ServiceEnv)) (st : WorkerSt)
    (hinv : storeInv st.jobs) : storeInv (runMsgs msgs st).jobs := by
  induction msgs generalizing st with
  | nil => simpa [runMsgs] using hinv
  | cons m rest ih =>
    rcases m with ⟨jd, env⟩
    simp only [runMsgs]
    exact ih _ (pool_preserves_inv jd env st hinv)

/-- C3: in every sequential run of the consumer/pool/worker system from an
empty store — including runs that redeliver the same item message — every job
record always satisfies `completedImages ≤ totalImages`. -/
theorem c3_completed_le_total (msgs : List (JobData × ServiceEnv)) (j : JobRec)
    (hj : j ∈ (runMsgs msgs ⟨[], []⟩).jobs) : j.completedImages ≤ j.totalImages := by
  have h := runMsgs_inv msgs ⟨[], []⟩
    ⟨fun x hx => absurd hx (List.not_mem_nil x), List.nodup_nil⟩
  exact (h.1 j hj).2.1

/-- Witness for C3: the job produced by one delivery of `jdJ2`. -/
theorem c3_completed_le_total_witness :
    jobDone.completedImages ≤ jobDone.totalImages :=
  c3_completed_le_total [(jdJ2, envOk)] jobDone (by decide)

/-- C4: from any invariant-satisfying store where the target job (if present)
is still processing, a worker run increments the counter and sets the status
to `"completed"` exactly when the post-increment counter equals the total,
emitting a `jobCompleted` outcome exactly at that transition. -/
theorem c4_completion_iff (jobData : JobData) (env : ServiceEnv) (st : WorkerSt)
    (jobId userId prompt scriptId splitScriptId : String)
    (h1 : jobData.jobId = some jobId) (h2 : jobData.userId = some userId)
    (h3 : jobData.prompt = some prompt) (h4 : jobData.scriptId = some scriptId)
    (h5 : jobData.splitScriptId = some splitScriptId)
    (hinv : storeInv st.jobs)
    (hstat : ∀ j, findJob st.jobs jobId = some j → j.status = "processing") :
    ∃ j', findJob (workerGenerateImage jobData env st).1.jobs jobId = some j' ∧
      j'.completedImages =
        (ensureJob st.jobs jobId scriptId userId jobData.totalImage).1.completedImages + 1 ∧
      j'.totalImages =
        (ensureJob st.jobs jobId scriptId userId jobData.totalImage).1.totalImages ∧
      (j'.status = "completed" ↔ j'.completedImages = j'.totalImages) ∧
      ((workerGenerateImage jobData env st).2.any (fun m => m.isJobCompletedMsg) = true ↔
        j'.status = "completed") := by
  obtain ⟨res, images', hres, hserv, hrun⟩ :=
    worker_valid_run jobData env st jobId userId prompt scriptId splitScriptId h1 h2 h3 h4 h5
  rw [hrun]
  obtain ⟨hinv2, hjob0inv⟩ := ensureJob_inv st.jobs jobId scriptId userId jobData.totalImage hinv
  have hfind2 := ensureJob_find st.jobs jobId scriptId userId jobData.totalImage
  have hstat0 := ensureJob_status st.jobs jobId scriptId userId jobData.totalImage hstat
  set fc := ensureJob st.jobs jobId scriptId userId jobData.totalImage with hfc
  have hlt : fc.1.completedImages < fc.1.totalImages := hjob0inv.2.2.1 hstat0
  unfold workerSuccessResult
  by_cases hc : fc.1.totalImages ≤ fc.1.completedImages + 1
  · rw [if_pos hc]
    have hceq : fc.1.completedImages + 1 = fc.1.totalImages := by omega
    refine ⟨{ fc.1 with
                completedImages := fc.1.completedImages + 1,
                imageIds := fc.1.imageIds ++ [res.data.imageId],
                status := "completed" }, ?_, rfl, rfl, ?_, ?_⟩
    · show findJob (jobUpdate (jobUpdate fc.2 jobId
          (fun j => { j with completedImages := j.completedImages + 1,
                             imageIds := j.imageIds ++ [res.data.imageId] })) jobId
          (fun j => { j with status := "completed" })) jobId =
        some { fc.1 with
                 completedImages := fc.1.completedImages + 1,
                 imageIds := fc.1.imageIds ++ [res.data.imageId],
                 status := "completed" }
      rw [findJob_jobUpdate (jobUpdate fc.2 jobId
            (fun j => { j with completedImages := j.completedImages + 1,
                               imageIds := j.imageIds ++ [res.data.imageId] })) jobId
          (fun j => { j with status := "completed" }) (fun j => rfl),
        findJob_jobUpdate fc.2 jobId
          (fun j => { j with completedImages := j.completedImages + 1,
                             imageIds := j.imageIds ++ [res.data.imageId] })
          (fun j => rfl),
        hfind2]
      rfl
    · constructor
      · intro _
        exact hceq
      · intro _
        rfl
    · constructor
      · intro _
        rfl
      · intro _
        rfl
  · rw [if_neg hc]
    have hclt : fc.1.completedImages + 1 < fc.1.totalImages := by omega
    refine ⟨{ fc.1 with
                completedImages := fc.1.completedImages + 1,
                imageIds := fc.1.imageIds ++ [res.data.imageId] }, ?_, rfl, rfl, ?_, ?_⟩
    · show findJob (jobUpdate fc.2 jobId
          (fun j => { j with completedImages := j.completedImages + 1,
                             imageIds := j.imageIds ++ [res.data.imageId] })) jobId =
        some { fc.1 with
                 completedImages := fc.1.completedImages + 1,
                 imageIds := fc.1.imageIds ++ [res.data.imageId] }
      rw [findJob_jobUpdate fc.2 jobId
          (fun j => { j with completedImages := j.completedImages + 1,
                             imageIds := j.imageIds ++ [res.data.imageId] })
          (fun j => rfl),
        hfind2]
      rfl
    · show fc.1.status = "completed" ↔ fc.1.completedImages + 1 = fc.1.totalImages
      rw [hstat0]
      constructor
      · intro h
        exact absurd h (by decide)
      · intro h
        exact absurd h (by omega)
    · show ([OutMsg.imageGenerated true res.data fc.1.completedImages fc.1.totalImages
          (fc.1.status = "completed")].any (fun m => m.isJobCompletedMsg) = true)
        ↔ fc.1.status = "completed"
      rw [hstat0]
      constructor
      · intro h
        have hlit : false = true := h
        exact absurd hlit (by decide)
      · intro h
        exact absurd h (by decide)

/-- Witness for C4: one delivery of `jdJ2` on the empty store completes the
job at post-increment counter 1 = total 1 and emits `jobCompleted`. -/
theorem c4_completion_iff_witness :
    ∃ j', findJob (workerGenerateImage jdJ2 envOk ⟨[], []⟩).1.jobs "J2" = some j' ∧
      j'.completedImages =
        (ensureJob ([] : List JobRec) "J2" "s1" "u1" jdJ2.totalImage).1.completedImages + 1 ∧
      j'.totalImages =
        (ensureJob ([] : List JobRec) "J2" "s1" "u1" jdJ2.totalImage).1.totalImages ∧
      (j'.status = "completed" ↔ j'.completedImages = j'.totalImages) ∧
      ((workerGenerateImage jdJ2 envOk ⟨[], []⟩).2.any (fun m => m.isJobCompletedMsg) = true ↔
        j'.status = "completed") :=
  c4_completion_iff jdJ2 envOk ⟨[], []⟩ "J2" "u1" "a cat" "s1" "ss1" rfl rfl rfl rfl rfl
    ⟨fun x hx => absurd hx (List.not_mem_nil x), List.nodup_nil⟩
    (fun j h => by simp [findJob] at h)
